import Mathlib

/-
Verification development for the rag-ai-backend repository.

JavaScript values are shallowly embedded as follows: strings are lists of
characters (a JS string is a sequence of UTF-16 units; surrogate pairs are
not split by any operation modelled here), numbers that carry similarity
scores are rationals (the comparisons performed by the code are order
comparisons on decimal literals, which rationals model exactly), JS
undefined and null are Option.none, and a function that can reject is
embedded with an Except result. Wall-clock readings (Date.now timestamps,
processingTime fields) are omitted from record models and noted at each
omission. External services (the Jina embedding API, the Qdrant vector
index, the Gemini model, Redis) are modelled as environments that supply
the outcome of each outbound call.
-/

set_option maxRecDepth 10000

/-- JS strings as lists of UTF-16 units. -/
abbrev Str := List Char

/-- Coerce a Lean string literal to the JS string model. -/
def str (s : String) : Str := s.data

/-- JS String.prototype.includes: substring test. -/
def strIncludes : Str → Str → Bool
  | [], pat => pat.isEmpty
  | s@(_ :: cs), pat => pat.isPrefixOf s || strIncludes cs pat

/-- JS String.prototype.replace with a string pattern: replaces only the
first occurrence, returns the string unchanged when the pattern is absent. -/
def replaceFirst (pat rep : Str) : Str → Str
  | [] => if pat.isEmpty then rep else []
  | c :: cs =>
    if pat.isPrefixOf (c :: cs) then rep ++ (c :: cs).drop pat.length
    else c :: replaceFirst pat rep cs

/-- JS String.prototype.toLowerCase (ASCII range, which is all the
keyword buckets use). -/
def lowerStr (s : Str) : Str := s.map Char.toLower

/-- JS truthiness-based defaulting for an optional string:
a || b where a may be undefined and the empty string is falsy. -/
def jsOrStr (a : Option Str) (b : Str) : Str :=
  match a with
  | some s => if s.isEmpty then b else s
  | none => b

/-- JS template-literal interpolation of a possibly-undefined value:
undefined prints as the text undefined. -/
def jsShowOptStr (o : Option Str) : Str := o.getD (str "undefined")

/-- JS Array.prototype.join with a separator. -/
def joinSep (sep : Str) : List Str → Str
  | [] => []
  | [x] => x
  | x :: y :: xs => x ++ sep ++ joinSep sep (y :: xs)

/-- JS String.prototype.trim. -/
def trimStr (s : Str) : Str :=
  ((s.dropWhile Char.isWhitespace).reverse.dropWhile Char.isWhitespace).reverse

/-- ToInt32 coercion performed by the JS bitwise operators. -/
def toInt32 (x : Int) : Int :=
  let r := x % 4294967296
  if r < 2147483648 then r else r - 4294967296

/-- One step of simpleHash from jinaService: hash = (hash << 5) - hash + char
followed by hash = hash & hash (a ToInt32 round-trip). -/
def simpleHashStep (hash : Int) (c : Char) : Int :=
  toInt32 (toInt32 (hash * 32) - hash + (c.toNat : Int))

/-- simpleHash from jinaService: the deterministic seed of the mock
embedding. Returns 0 for the empty string before taking Math.abs,
exactly as the source does. -/
def simpleHash (s : Str) : Int :=
  if s.length = 0 then 0 else ((s.foldl simpleHashStep 0).natAbs : Int)

/-
Data model shared by the retriever, the orchestrator and the gateway.
Only the payload fields that the modelled operations read (title, content,
url, snippet, source, publishedAt) are represented; fields the code never
reads on these paths (category, publishedDate, ingestionTimestamp,
contentLength) are dropped. Every field is optional because the payload of
an indexed document is arbitrary JSON.
-/

/-- Payload of a retrieval hit, as read by ragService. -/
structure Payload where
  title : Option Str
  content : Option Str
  url : Option Str
  snippet : Option Str
  source : Option Str
  publishedAt : Option Str
deriving DecidableEq

/-- A payload with every field absent: the default installed by
searchVectors when the backend hit carries no payload. -/
def emptyPayload : Payload := ⟨none, none, none, none, none, none⟩

/-- RetrievalCandidate: what qdrantService.searchVectors returns to the
orchestrator (id, score, payload). -/
structure Candidate where
  id : Str
  score : ℚ
  payload : Payload
deriving DecidableEq

/-- A raw hit inside the Qdrant HTTP response body (result array entry). -/
structure RawHit where
  id : Str
  score : ℚ
  payload : Option Payload
deriving DecidableEq

/-- Transformation applied by searchVectors to each backend hit:
payload defaults to the empty object. -/
def rawToCandidate (h : RawHit) : Candidate := ⟨h.id, h.score, h.payload.getD emptyPayload⟩

/-
Qdrant retriever (src/services/qdrantService.js). QDRANT_CONFIG.url has a
non-empty literal default, so the configuration guard
(!QDRANT_CONFIG.url || !QDRANT_CONFIG.apiKey) reduces to the api-key
check. The environment records whether the key is configured and the
outcome of the similarity POST: a transport failure (rejection), or a
response body whose optional result field holds the hit array.
-/

/-- Environment of one searchVectors call. -/
structure QdrantEnv where
  apiKeyConfigured : Bool
  response : Except Str (Option (List RawHit))

/-- Value produced by jinaService.generateEmbedding and handed to
searchVectors as the query vector: a real embedding, the mock embedding,
or undefined (the latter only reachable with maxRetries = 0). The mock
vector itself is 768 trigonometric floats seeded by simpleHash of the
text; floating point is not modelled, so the mock is represented by its
seed, which determines it. The retriever only forwards the vector to the
backend. -/
inductive EmbedOut
  | vec (v : List ℚ)
  | mock (hash : Int)
  | undef
deriving DecidableEq

/-- getMockSearchResults from qdrantService: five hardcoded articles
returned whenever Qdrant is unconfigured or the search call fails. -/
def getMockSearchResults : List Candidate :=
  [ ⟨str "mock-1", mkRat 85 100,
      ⟨some (str "Flying cars crash into each other at Chinese air show"),
       some (str "Two flying cars collided during a demonstration at an air show in China, raising concerns about the safety and regulation of flying car technology. The incident occurred during a rehearsal for an air show, with both vehicles crashing to the ground. No injuries were reported, but the accident has prompted calls for stricter safety protocols in the emerging flying car industry."),
       some (str "https://www.bbc.com/news/technology-flying-cars"),
       some (str "Two flying cars collided during a demonstration at an air show in China..."),
       some (str "BBC News"),
       some (str "2025-09-17T10:30:00Z")⟩⟩,
    ⟨str "mock-2", mkRat 82 100,
      ⟨some (str "US tennis star sorry for offensive comments on Chinese food"),
       some (str "A prominent US tennis player has issued a public apology after making controversial comments about Chinese food during a press conference. The remarks, which were widely criticized as culturally insensitive, sparked outrage on social media and prompted calls for the player to be sanctioned."),
       some (str "https://www.bbc.com/sport/tennis-controversy"),
       some (str "A prominent US tennis player has issued a public apology after making controversial comments..."),
       some (str "BBC News"),
       some (str "2025-09-17T14:20:00Z")⟩⟩,
    ⟨str "mock-3", mkRat 79 100,
      ⟨some (str "Madeleine McCann suspect freed from German prison"),
       some (str "Christian Brückner, the prime suspect in the Madeleine McCann disappearance case, has been released from a German prison after serving his sentence for an unrelated rape conviction. His release has reignited public interest in the long-unsolved case."),
       some (str "https://www.bbc.com/news/uk-madeleine-mccann"),
       some (str "Christian Brückner, the prime suspect in the Madeleine McCann disappearance case..."),
       some (str "BBC News"),
       some (str "2025-09-17T16:45:00Z")⟩⟩,
    ⟨str "mock-4", mkRat 76 100,
      ⟨some (str "AI can forecast your future health – just like the weather"),
       some (str "Researchers have developed an AI system that can predict future health conditions with accuracy similar to weather forecasting. The system analyzes various health indicators and lifestyle factors to provide personalized health predictions."),
       some (str "https://www.bbc.com/news/technology-ai-health"),
       some (str "Researchers have developed an AI system that can predict future health conditions..."),
       some (str "BBC News"),
       some (str "2025-09-17T12:15:00Z")⟩⟩,
    ⟨str "mock-5", mkRat 73 100,
      ⟨some (str "Search for ancient Egyptian gold bracelet missing from Cairo museum"),
       some (str "Egyptian authorities have launched an investigation after a 3,000-year-old gold bracelet went missing from the Egyptian Museum in Cairo. The artifact, dating back to the reign of King Amenemhope, vanished from the museum\x27s restoration laboratory."),
       some (str "https://www.bbc.com/news/world-middle-east-egypt"),
       some (str "Egyptian authorities have launched an investigation after a 3,000-year-old gold bracelet..."),
       some (str "BBC News"),
       some (str "2025-09-17T09:30:00Z")⟩⟩ ]

/-- searchVectors from qdrantService. The query vector, limit and
scoreThreshold are only forwarded to the backend (the environment already
fixes the response), never used to filter on the caller side. On a
transport failure or when the api key is unconfigured the function
returns the mock articles; a response body without a result field yields
the empty list. -/
def searchVectors (env : QdrantEnv) (_queryVector : EmbedOut) (_limit : Nat)
    (_scoreThreshold : ℚ) : List Candidate :=
  if env.apiKeyConfigured = false then getMockSearchResults
  else
    match env.response with
    | Except.error _ => getMockSearchResults
    | Except.ok none => []
    | Except.ok (some hits) => hits.map rawToCandidate

/-
Embedding client on the live query path (jinaService.js, the module that
ragService requires as ./jinaService). The loop posts to the Jina API up
to maxRetries times (the default at every call site on the live path is
2); a rejection whose HTTP status is a truthy number below 500, or the
last attempt, rethrows; otherwise the loop sleeps 1000 * attempt ms and
retries. The surrounding try/catch converts every rethrown error into the
deterministic mock embedding, and an unconfigured api key short-circuits
to the mock embedding before the loop. A 2xx body without data.data[0]
is the rejection with message Invalid response format from Jina API and
no HTTP status.
-/

/-- Outcome of one POST to the Jina embeddings endpoint. -/
inductive JinaOutcome
  | ok (embedding : List ℚ)
  | fail (status : Option Nat) (message : Str)

/-- Environment of one generateEmbedding call. -/
structure JinaEnv where
  apiKeyConfigured : Bool
  attemptOutcome : Nat → JinaOutcome

/-- JS truthiness of error.response?.status combined with status < 500. -/
def jsStatusLt500 : Option Nat → Bool
  | none => false
  | some s => decide (0 < s) && decide (s < 500)

/-- Bookkeeping of one run of the retry loop: the final result (none
models the undefined return of a loop entered with maxRetries = 0), the
delays slept between attempts, and the number of attempts made. -/
structure JinaRun where
  result : Option (Except Str (List ℚ))
  delays : List Nat
  attemptsMade : Nat

/-- The retry loop of jinaService.generateEmbedding, recursing on the
remaining iterations with the JS attempt counter carried explicitly. -/
def jinaGo (env : JinaEnv) (maxRetries : Nat) : Nat → Nat → JinaRun
  | 0, _ => ⟨none, [], 0⟩
  | fuel + 1, attempt =>
    match env.attemptOutcome attempt with
    | JinaOutcome.ok emb => ⟨some (Except.ok emb), [], 1⟩
    | JinaOutcome.fail status msg =>
      if attempt == maxRetries || jsStatusLt500 status then
        ⟨some (Except.error msg), [], 1⟩
      else
        let r := jinaGo env maxRetries fuel (attempt + 1)
        ⟨r.result, 1000 * attempt :: r.delays, r.attemptsMade + 1⟩

/-- jinaService.generateEmbedding: never rejects; every failure path
degrades to the mock embedding. Returns the value and the number of
attempts made against the API. -/
def generateEmbedding (env : JinaEnv) (text : Str) (maxRetries : Nat) :
    EmbedOut × Nat :=
  if env.apiKeyConfigured = false then (EmbedOut.mock (simpleHash text), 0)
  else
    let r := jinaGo env maxRetries maxRetries 1
    match r.result with
    | some (Except.ok emb) => (EmbedOut.vec emb, r.attemptsMade)
    | some (Except.error _) => (EmbedOut.mock (simpleHash text), r.attemptsMade)
    | none => (EmbedOut.undef, r.attemptsMade)

/-
Generation client (generateWithGemini in ragService). Each attempt either
resolves to a text or rejects with an error message; a resolved text of
length at most 10 is converted to the error Empty or invalid response
from Gemini inside the same try block. The catch retries with a delay of
retryDelay * attempt when the message contains one of the four retryable
substrings and attempts remain; it rethrows only when attempt equals
maxRetries — an error that matches neither branch falls through to the
next loop iteration with no delay.
-/

/-- Outcome of one model.generateContent call. -/
inductive GeminiOutcome
  | success (text : Str)
  | failure (message : Str)

/-- The message of the error thrown for an empty or short response. -/
def invalidRespMsg : Str := str "Empty or invalid response from Gemini"

/-- Collapse one attempt outcome to the value the catch block sees. -/
def geminiAttemptResult (o : GeminiOutcome) : Except Str Str :=
  match o with
  | GeminiOutcome.success t => if 10 < t.length then Except.ok t else Except.error invalidRespMsg
  | GeminiOutcome.failure m => Except.error m

/-- The retryability test of generateWithGemini: a substring check of the
error message against 503, overloaded, quota and rate limit. -/
def retryableGemini (msg : Str) : Bool :=
  strIncludes msg (str "503") || strIncludes msg (str "overloaded") ||
  strIncludes msg (str "quota") || strIncludes msg (str "rate limit")

/-- One loop step as observed from outside: the attempt number and the
backoff slept after it, if any. -/
structure GemStep where
  attempt : Nat
  sleptMs : Option Nat
deriving DecidableEq

/-- The retry loop of generateWithGemini. The first component none models
the undefined return of a loop entered with maxRetries = 0. -/
def geminiGo (env : Nat → GeminiOutcome) (maxRetries retryDelay : Nat) :
    Nat → Nat → Option (Except Str Str) × List GemStep
  | 0, _ => (none, [])
  | fuel + 1, attempt =>
    match geminiAttemptResult (env attempt) with
    | Except.ok t => (some (Except.ok t), [⟨attempt, none⟩])
    | Except.error m =>
      if retryableGemini m && attempt < maxRetries then
        let r := geminiGo env maxRetries retryDelay fuel (attempt + 1)
        (r.1, ⟨attempt, some (retryDelay * attempt)⟩ :: r.2)
      else if attempt == maxRetries then (some (Except.error m), [⟨attempt, none⟩])
      else
        let r := geminiGo env maxRetries retryDelay fuel (attempt + 1)
        (r.1, ⟨attempt, none⟩ :: r.2)

/-- generateWithGemini: run the loop from attempt 1. The orchestrator
calls it with the defaults maxRetries = 3, retryDelay = 2000. -/
def generateWithGemini (env : Nat → GeminiOutcome) (maxRetries retryDelay : Nat) :
    Option (Except Str Str) × List GemStep :=
  geminiGo env maxRetries retryDelay maxRetries 1

/-
RAG orchestrator (ragService.js): validateQuery, generateFallbackResponse
and generateRAGResponse.
-/

/-- The JS value passed as the query: a string, or any non-string value
(null, undefined, a number, an object). -/
inductive QueryInput
  | string (s : Str)
  | nonString

/-- Result of validateQuery. -/
inductive ValidationResult
  | invalid (error : Str)
  | valid (query : Str)
deriving DecidableEq

/-- validateQuery from ragService: the !query guard makes the empty
string fall into the non-empty-string error together with every
non-string value. -/
def validateQuery : QueryInput → ValidationResult
  | QueryInput.nonString => ValidationResult.invalid (str "Query must be a non-empty string")
  | QueryInput.string s =>
    if s.isEmpty then ValidationResult.invalid (str "Query must be a non-empty string")
    else
      let cleanQuery := trimStr s
      if cleanQuery.length < 3 then
        ValidationResult.invalid (str "Query is too short (minimum 3 characters)")
      else if 1000 < cleanQuery.length then
        ValidationResult.invalid (str "Query is too long (maximum 1000 characters)")
      else ValidationResult.valid cleanQuery

/-- Keyword bucket of the recency fallback template. -/
def fallbackKeywords1 : List Str :=
  [str "yesterday", str "recent", str "latest", str "today", str "news"]

/-- Keyword bucket of the technology fallback template. -/
def fallbackKeywords2 : List Str :=
  [str "technology", str "tech", str "ai", str "artificial intelligence"]

/-- Keyword bucket of the business fallback template. -/
def fallbackKeywords3 : List Str :=
  [str "business", str "market", str "finance", str "economic"]

/-- The recency fallback template with the query interpolated. -/
def fallbackTemplate1 (query : Str) : Str :=
  str "I apologize, but I\x27m currently experiencing high load and cannot generate a detailed response. However, based on your query about \"" ++
  query ++
  str "\", here are some relevant sources I found:\n\n{sources}\n\nFor the most up-to-date information, I recommend checking these news sources directly. Please try your question again in a moment when the system load is lighter."

/-- The technology fallback template with the query interpolated. -/
def fallbackTemplate2 (query : Str) : Str :=
  str "I\x27m currently experiencing high demand and cannot provide a full analysis. Your question about \"" ++
  query ++
  str "\" relates to technology news. Here are relevant sources I found:\n\n{sources}\n\nThese sources contain the latest information on your topic. Please try again shortly for a more detailed AI-generated response."

/-- The business fallback template with the query interpolated. -/
def fallbackTemplate3 (query : Str) : Str :=
  str "Due to high system load, I cannot provide a detailed business analysis right now. However, I found relevant sources for your query \"" ++
  query ++
  str "\":\n\n{sources}\n\nFor current business and financial news, please check these sources directly. Try asking again in a few moments."

/-- The default fallback template with the query interpolated. -/
def fallbackDefaultTemplate (query : Str) : Str :=
  str "I apologize, but due to high system demand, I cannot generate a detailed response for \"" ++
  query ++
  str "\" right now. Here are relevant sources I found:\n\n{sources}\n\nPlease check these sources for information and try your question again shortly."

/-- template.keywords.some(k => query.toLowerCase().includes(k.toLowerCase())). -/
def templateMatches (keywords : List Str) (query : Str) : Bool :=
  keywords.any (fun k => strIncludes (lowerStr query) (lowerStr k))

/-- Array.prototype.find over the three keyword buckets, defaulting to
the generic template, with the query already interpolated. -/
def selectFallbackTemplate (query : Str) : Str :=
  if templateMatches fallbackKeywords1 query then fallbackTemplate1 query
  else if templateMatches fallbackKeywords2 query then fallbackTemplate2 query
  else if templateMatches fallbackKeywords3 query then fallbackTemplate3 query
  else fallbackDefaultTemplate query

/-- The placeholder replaced inside every fallback template. -/
def sourcesPat : Str := str "{sources}"

/-- The sentence interpolated when no candidates were retrieved. -/
def noSourcesSentence : Str :=
  str "No specific sources found, but you can check major news outlets for the latest information."

/-- One entry of the source list inside the fallback text. The title and
source are interpolated raw (a missing field prints as undefined); only
the snippet carries a default. -/
def fallbackSourceEntry (p : Nat × Candidate) : Str :=
  (Nat.repr (p.1 + 1)).data ++ str ". " ++ jsShowOptStr p.2.payload.title ++
  str " (" ++ jsShowOptStr p.2.payload.source ++ str ")\n   " ++
  jsOrStr p.2.payload.snippet (str "No preview available")

/-- generateFallbackResponse from ragService: select a template by
keyword bucket, format the candidate list (or the no-sources sentence),
and substitute it for the first occurrence of the placeholder. -/
def generateFallbackResponse (query : Str) (documents : List Candidate) : Str :=
  let sourcesText :=
    if 0 < documents.length then joinSep (str "\n\n") (documents.enum.map fallbackSourceEntry)
    else noSourcesSentence
  replaceFirst sourcesPat sourcesText (selectFallbackTemplate query)

/-- Source: the retrieval hit surfaced to the user inside a bot message. -/
structure Source where
  title : Str
  source : Str
  url : Str
  snippet : Str
  relevanceScore : ℚ
  publishedAt : Option Str
deriving DecidableEq

/-- The sources.push literal of generateRAGResponse. doc.score || 0 is
the identity on a numeric score and is modelled as such. -/
def candidateToSource (doc : Candidate) : Source :=
  ⟨jsOrStr doc.payload.title (str "Untitled"),
   jsOrStr doc.payload.source (str "Unknown Source"),
   jsOrStr doc.payload.url (str "#"),
   jsOrStr doc.payload.snippet (jsOrStr (doc.payload.content.map (List.take 150)) []),
   doc.score,
   doc.payload.publishedAt⟩

/-- One block of the prompt context per relevant document. -/
def contextEntry (p : Nat × Candidate) : Str :=
  str "Source " ++ (Nat.repr (p.1 + 1)).data ++ str ": " ++
  jsOrStr p.2.payload.title (str "Untitled") ++
  str "\nContent: " ++
  jsOrStr p.2.payload.content (jsOrStr p.2.payload.snippet (str "No content available")) ++
  str "\nPublished: " ++
  jsOrStr p.2.payload.publishedAt (str "Unknown date")

/-- The context block built from the relevant documents; the source skips
the construction entirely for an empty list, which yields the same empty
string as joining no blocks. -/
def buildContext (docs : List Candidate) : Str :=
  joinSep (str "\n\n") (docs.enum.map contextEntry)

/-- The system prompt of generateRAGResponse. -/
def mkSystemPrompt (context cleanQuery : Str) : Str :=
  str "You are a helpful news assistant that provides accurate, up-to-date information based on reliable sources. \n    \nInstructions:\n- Answer the user\x27s question using only the provided context\n- Be informative and comprehensive\n- If the context doesn\x27t fully answer the question, acknowledge this\n- Maintain a professional, journalistic tone\n- Focus on factual information\n- Don\x27t make up information not in the sources\n\nContext from news sources:\n" ++
  jsOrStr (some context) (str "No specific recent news found for this query.") ++
  str "\n\nUser Question: " ++ cleanQuery ++
  str "\n\nPlease provide a helpful response based on the available information:"

/-- Metadata of a RAGResult. processingTime and timestamp are wall-clock
readings and are omitted; fields absent from a given return literal are
none. -/
structure RagMetadata where
  modelUsed : Str
  documentsFound : Option Nat
  sourcesUsed : Option Nat
  queryLength : Option Nat
  error : Option Str
deriving DecidableEq

/-- RAGResult: the orchestrator return value. -/
structure RAGResult where
  answer : Str
  sources : List Source
  metadata : RagMetadata
deriving DecidableEq

/-- The answer text of the generic error fallback (the outer catch of
generateRAGResponse), with the raw query interpolated. -/
def errorFallbackAnswer (query : Str) : Str :=
  str "I apologize, but I\x27m currently experiencing technical difficulties and cannot provide a detailed response to your question \"" ++
  query ++
  str "\". This might be due to:\n\n• High system load on AI services\n• Temporary API limitations  \n• Network connectivity issues\n\nPlease try:\n1. Asking a simpler or different question\n2. Trying again in a few minutes\n3. Checking major news websites directly for the latest information\n\nThank you for your patience!"

/-- The RAGResult returned by the outer catch of generateRAGResponse. -/
def errorFallbackResult (query errMsg : Str) : RAGResult :=
  ⟨errorFallbackAnswer query, [],
   ⟨str "error-fallback", none, none, none, some errMsg⟩⟩

/-- Environment of one orchestration: the three external services. The
Gemini oracle maps each attempt number to its outcome; the prompt is
fixed for the whole call, so it is not a parameter of the oracle. -/
structure RagEnv where
  jina : JinaEnv
  qdrant : QdrantEnv
  gemini : Nat → GeminiOutcome

/-- The relevance post-filter of generateRAGResponse: candidates are kept
exactly when their score is strictly greater than 0.7. -/
def relevanceFilter (searchResults : List Candidate) : List Candidate :=
  if 0 < searchResults.length then
    searchResults.filter (fun r => mkRat 7 10 < r.score)
  else []

/-- The pipeline below a successful embedding: retrieve (top 5, backend
threshold 0.7), post-filter, assemble sources and context, then generate
with retries; a generation error selects the template fallback. The none
branch models the undefined return of a zero-iteration retry loop, which
maxRetries = 3 makes unreachable (geminiGo_isSome below); the JS answer
there would be undefined, modelled as the empty string. -/
def ragWithEmbedding (env : RagEnv) (cleanQuery : Str) (embedding : EmbedOut) : RAGResult :=
  let searchResults := searchVectors env.qdrant embedding 5 (mkRat 7 10)
  let relevantDocs := relevanceFilter searchResults
  let sources := relevantDocs.map candidateToSource
  let context := buildContext relevantDocs
  let _systemPrompt := mkSystemPrompt context cleanQuery
  match (generateWithGemini env.gemini 3 2000).1 with
  | some (Except.ok text) =>
    ⟨text, sources,
     ⟨str "gemini-1.5-flash", some relevantDocs.length, some sources.length,
      some cleanQuery.length, none⟩⟩
  | some (Except.error _) =>
    ⟨generateFallbackResponse cleanQuery relevantDocs, sources,
     ⟨str "fallback-template", some relevantDocs.length, some sources.length,
      none, some (str "AI model temporarily unavailable")⟩⟩
  | none =>
    ⟨[], sources,
     ⟨str "gemini-1.5-flash", some relevantDocs.length, some sources.length,
      some cleanQuery.length, none⟩⟩

/-- generateRAGResponse for a string query. A validation failure is
thrown inside the outer try and caught by the outer catch, which returns
the error fallback; the embedding guard (!embedding not an array) can
only fire on the undefined value. The sessionId is only logged. -/
def generateRAGResponse (env : RagEnv) (query _sessionId : Str) : RAGResult :=
  match validateQuery (QueryInput.string query) with
  | ValidationResult.invalid e =>
    errorFallbackResult query (str "Invalid query: " ++ e)
  | ValidationResult.valid cleanQuery =>
    match generateEmbedding env.jina cleanQuery 2 with
    | (EmbedOut.undef, _) =>
      errorFallbackResult query (str "Failed to generate embedding for query")
    | (embedding, _) => ragWithEmbedding env cleanQuery embedding

/-- The TypeError message raised when logging substrings a non-string. -/
def jsTypeErrorMsg : Str := str "query.substring is not a function"

/-- generateRAGResponse over a JS query value. For a non-string query the
initial logger call query.substring(0, 100) throws before validation;
the outer catch then evaluates query.substring(0, 50) itself and the
TypeError propagates to the caller, so the call rejects. For a string
query every path returns a RAGResult. -/
def generateRAGResponseJS (env : RagEnv) (query : QueryInput) (sessionId : Str) :
    Except Str RAGResult :=
  match query with
  | QueryInput.nonString => Except.error jsTypeErrorMsg
  | QueryInput.string s => Except.ok (generateRAGResponse env s sessionId)

/-
Conversation gateway (chatController.js): the REST handler sendMessage
and the socket handler for the send_message event, both appending to the
session history held in Redis. The session store is modelled at the
message-list level here (a missing key loads as the empty list, exactly
what getSession returns); key expiry is modelled separately with the
Redis-level saveSession below.
-/

/-- Metadata attached to a gateway message. The REST user message also
carries the constant method field REST, folded into the constructor. -/
inductive MsgMeta
  | restUser (ipAddress userAgent : Str)
  | socketUser (socketId ipAddress : Str)
  | fromRag (m : RagMetadata)
deriving DecidableEq

/-- A chat message. The timestamp field is a wall-clock reading and is
omitted; user messages have no sources field (none), bot messages carry
the sources of the RAGResult. -/
structure Message where
  id : Str
  type : Str
  content : Str
  sources : Option (List Source)
  metadata : MsgMeta
deriving DecidableEq

/-- The session store as the gateway sees it: sessionId to message list,
with a missing or expired key reading as the empty list. -/
abbrev SessStore := Str → List Message

/-- Wholesale overwrite of one session. -/
def updateStore (st : SessStore) (sid : Str) (msgs : List Message) : SessStore :=
  fun k => if k = sid then msgs else st k

/-- Environment of one gateway turn: the Joi uuid verdict on the
sessionId, the two generated message ids, the transport identifiers and
the orchestration environment. -/
structure TurnEnv where
  sessionIdIsUuid : Bool
  userMsgId : Str
  botMsgId : Str
  ipAddress : Str
  userAgent : Str
  socketId : Str
  rag : RagEnv

/-- The Joi messageSchema: sessionId must be a uuid string, message a
string of length 1 to 1000. -/
def joiValid (env : TurnEnv) (_sessionId message : Str) : Bool :=
  env.sessionIdIsUuid && (1 ≤ message.length && message.length ≤ 1000)

/-- Outcome of the REST handler as seen by the HTTP caller. -/
inductive RestOut
  | badRequest (error : Str)
  | ok (answer : Str) (sources : List Source)
deriving DecidableEq

/-- REST sendMessage: validate, load, push the user message, orchestrate,
push the bot message, then a single wholesale save of the whole list.
Returns the HTTP outcome, the new store, and the trace of saveSession
calls (key and value). The orchestrator never rejects on a string query,
so the 500 catch branch is unreachable and not modelled. -/
def sendMessage (env : TurnEnv) (store : SessStore) (sessionId message : Str) :
    RestOut × SessStore × List (Str × List Message) :=
  if joiValid env sessionId message = false then
    (RestOut.badRequest (str "Invalid input"), store, [])
  else
    match validateQuery (QueryInput.string message) with
    | ValidationResult.invalid e => (RestOut.badRequest e, store, [])
    | ValidationResult.valid q =>
      let currentMessages := store sessionId
      let userMessage : Message :=
        ⟨env.userMsgId, str "user", q, none, MsgMeta.restUser env.ipAddress env.userAgent⟩
      let ragResponse := generateRAGResponse env.rag q sessionId
      let botMessage : Message :=
        ⟨env.botMsgId, str "bot", ragResponse.answer, some ragResponse.sources,
         MsgMeta.fromRag ragResponse.metadata⟩
      let finalMessages := (currentMessages ++ [userMessage]) ++ [botMessage]
      (RestOut.ok ragResponse.answer ragResponse.sources,
       updateStore store sessionId finalMessages,
       [(sessionId, finalMessages)])

/-- Events the socket handler emits. -/
inductive SockEmit
  | errorEmit (s : Str)
  | newMessage (m : Message)
  | botTyping (b : Bool)
deriving DecidableEq

/-- Socket send_message: validate, load, push the user message, save,
emit, orchestrate, push the bot message, save again. Two wholesale saves
per turn; the first contains only the new user message. -/
def socketSendMessage (env : TurnEnv) (store : SessStore) (sessionId message : Str) :
    List SockEmit × SessStore × List (Str × List Message) :=
  if joiValid env sessionId message = false then
    ([SockEmit.errorEmit (str "Invalid input")], store, [])
  else
    match validateQuery (QueryInput.string message) with
    | ValidationResult.invalid e => ([SockEmit.errorEmit e], store, [])
    | ValidationResult.valid q =>
      let messages := store sessionId
      let userMessage : Message :=
        ⟨env.userMsgId, str "user", q, none, MsgMeta.socketUser env.socketId env.ipAddress⟩
      let afterUser := messages ++ [userMessage]
      let store1 := updateStore store sessionId afterUser
      let ragResponse := generateRAGResponse env.rag q sessionId
      let botMessage : Message :=
        ⟨env.botMsgId, str "bot", ragResponse.answer, some ragResponse.sources,
         MsgMeta.fromRag ragResponse.metadata⟩
      let afterBot := afterUser ++ [botMessage]
      let store2 := updateStore store1 sessionId afterBot
      ([SockEmit.newMessage userMessage, SockEmit.botTyping true,
        SockEmit.botTyping false, SockEmit.newMessage botMessage],
       store2,
       [(sessionId, afterUser), (sessionId, afterBot)])

/-- Modelled from the spec: the Conversation Gateway persists each turn
with a single wholesale write containing both new messages. Used only to
compare the implemented save traces against the specified one. -/
def specGatewayTrace (sessionId : Str) (prior : List Message) (u b : Message) :
    List (Str × List Message) :=
  [(sessionId, (prior ++ [u]) ++ [b])]

/-- Modelled from the spec: the relevance post-filter drops exactly the
candidates strictly below the threshold, keeping a candidate whose score
equals it. Used only to compare against the implemented relevanceFilter. -/
def specRelevanceFilter (scoreThreshold : ℚ) (candidates : List Candidate) :
    List Candidate :=
  candidates.filter (fun r => scoreThreshold ≤ r.score)

/-
Session store at the Redis level (config/redis.js): saveSession issues
SETEX, which installs the full TTL unconditionally; extendSessionTTL
issues EXPIRE. Expiry is modelled as an absolute deadline now + ttl kept
next to the value. The lastUpdated field of the stored record is a
wall-clock reading and is omitted.
-/

/-- The JSON record written under the session key. -/
structure SessionData where
  sessionId : Str
  messages : List Message
  messageCount : Nat

/-- Redis contents: key to value and absolute expiry deadline. -/
abbrev RedisState := Str → Option (SessionData × Nat)

/-- SETEX key ttl value: store the value with deadline now + ttl,
whatever deadline the key had before. -/
def setex (st : RedisState) (now : Nat) (key : Str) (ttl : Nat) (v : SessionData) :
    RedisState :=
  fun k => if k = key then some (v, now + ttl) else st k

/-- parseInt(process.env.REDIS_TTL) || 3600: an unset or unparsable
variable is none, and the falsy parse 0 also falls back to 3600. -/
def effectiveTTL (envTTL : Option Nat) : Nat :=
  match envTTL with
  | some t => if t = 0 then 3600 else t
  | none => 3600

/-- The key session:sessionId. -/
def sessionKey (sid : Str) : Str := str "session:" ++ sid

/-- saveSession from config/redis.js: serialize the record and SETEX it
under the session key with the configured TTL. -/
def saveSession (st : RedisState) (now : Nat) (envTTL : Option Nat)
    (sessionId : Str) (messages : List Message) : RedisState :=
  setex st now (sessionKey sessionId) (effectiveTTL envTTL)
    ⟨sessionId, messages, messages.length⟩

/-- EXPIRE key ttl: reset the deadline of an existing key, reporting
whether the key existed. -/
def expire (st : RedisState) (now : Nat) (key : Str) (ttl : Nat) :
    RedisState × Bool :=
  match st key with
  | some (v, _) => (fun k => if k = key then some (v, now + ttl) else st k, true)
  | none => (st, false)

/-- extendSessionTTL from config/redis.js: ttl || REDIS_TTL || 3600, then
EXPIRE on the session key. -/
def extendSessionTTL (st : RedisState) (now : Nat) (envTTL : Option Nat)
    (sessionId : Str) (ttl : Option Nat) : RedisState × Bool :=
  let newTTL :=
    match ttl with
    | some t => if t = 0 then effectiveTTL envTTL else t
    | none => effectiveTTL envTTL
  expire st now (sessionKey sessionId) newTTL

/-
Concurrency model for two REST turns against the same session. Each turn
performs getSession (load) and, after the orchestration await, a
wholesale saveSession (save) of loaded ++ [user, bot]; the await between
them is a suspension point, so the loads and saves of the two turns may
interleave in any order that keeps each turn load-before-save. The store
offers no conditional write and the gateway takes no per-session lock.
-/

/-- An atomic session-store event of turn t. -/
inductive CEv
  | load (t : Fin 2)
  | save (t : Fin 2)
deriving DecidableEq

/-- Interleaving state: the authoritative history and what each turn has
loaded so far. -/
structure CState where
  hist : List Message
  loaded : Fin 2 → List Message

/-- One store event: load copies the history into the turn; save
overwrites the history with the turn loaded value plus its two new
messages, exactly the finalMessages write of sendMessage. -/
def concStep (turns : Fin 2 → Message × Message) (s : CState) : CEv → CState
  | CEv.load t => ⟨s.hist, fun t2 => if t2 = t then s.hist else s.loaded t2⟩
  | CEv.save t => ⟨(s.loaded t ++ [(turns t).1]) ++ [(turns t).2], s.loaded⟩

/-- Run a schedule of store events from an initial history. -/
def runSched (turns : Fin 2 → Message × Message) (evs : List CEv)
    (init : List Message) : CState :=
  evs.foldl (concStep turns) ⟨init, fun _ => []⟩

/-
Concrete fixtures used by the closed witnesses and counterexamples.
-/

/-- A Gemini answer longer than the 10-character validity floor. -/
def okText : Str := str "Here is the latest summary of the requested news."

/-- A Jina environment with no api key configured: the embedder
short-circuits to the mock embedding without calling the API. -/
def trivialJinaEnv : JinaEnv := ⟨false, fun _ => JinaOutcome.fail none []⟩

/-- A Qdrant environment whose search responds with an empty hit list. -/
def emptyQdrantEnv : QdrantEnv := ⟨true, Except.ok (some [])⟩

/-- A Gemini oracle that succeeds on every attempt. -/
def successGemini : Nat → GeminiOutcome := fun _ => GeminiOutcome.success okText

/-- A benign orchestration environment. -/
def ragEnv0 : RagEnv := ⟨trivialJinaEnv, emptyQdrantEnv, successGemini⟩

/-- A Gemini oracle whose first attempt rejects with a non-retryable
message and whose second attempt succeeds. -/
def geminiEnvBadRequest : Nat → GeminiOutcome :=
  fun n => if n = 1 then GeminiOutcome.failure (str "400 Bad Request")
           else GeminiOutcome.success okText

/-- A Jina environment in permanent 503: every attempt fails with a
retryable server error. -/
def jinaEnv503 : JinaEnv :=
  ⟨true, fun _ => JinaOutcome.fail (some 503) (str "Request failed with status code 503")⟩

/-- A candidate whose score equals the 0.7 threshold exactly. -/
def candScore70 : Candidate := ⟨str "doc-1", mkRat 7 10, emptyPayload⟩

/-- A candidate scoring 0.85. -/
def candScore85 : Candidate := ⟨str "doc-a", mkRat 85 100, emptyPayload⟩

/-- A candidate scoring 0.6. -/
def candScore60 : Candidate := ⟨str "doc-b", mkRat 6 10, emptyPayload⟩

/-- A Qdrant environment returning two hits scoring 0.85 and 0.6: the
retrieval side of the spec scenario. -/
def scenarioQdrant : QdrantEnv :=
  ⟨true, Except.ok (some [⟨str "doc-a", mkRat 85 100, none⟩, ⟨str "doc-b", mkRat 6 10, none⟩])⟩

/-- The orchestration environment of the spec scenario. -/
def scenarioRagEnv : RagEnv := ⟨trivialJinaEnv, scenarioQdrant, successGemini⟩

/-- A concrete gateway environment. -/
def turnEnv0 : TurnEnv :=
  ⟨true, str "uid-1", str "bid-1", str "127.0.0.1", str "test-agent",
   str "sock-1", ragEnv0⟩

/-- The empty session store. -/
def emptyStore : SessStore := fun _ => []

/-- A concrete session id. -/
def sid0 : Str := str "11111111-1111-1111-1111-111111111111"

/-- A concrete valid message. -/
def msg0 : Str := str "hello there"

/-- Turn 0 user message of the concurrency scenario. -/
def cUser0 : Message :=
  ⟨str "u0", str "user", str "first question", none,
   MsgMeta.restUser (str "ip0") (str "ua0")⟩

/-- Turn 0 bot message of the concurrency scenario. -/
def cBot0 : Message :=
  ⟨str "b0", str "bot", str "first answer", some [],
   MsgMeta.fromRag ⟨str "gemini-1.5-flash", some 0, some 0, some 14, none⟩⟩

/-- Turn 1 user message of the concurrency scenario. -/
def cUser1 : Message :=
  ⟨str "u1", str "user", str "second question", none,
   MsgMeta.restUser (str "ip1") (str "ua1")⟩

/-- Turn 1 bot message of the concurrency scenario. -/
def cBot1 : Message :=
  ⟨str "b1", str "bot", str "second answer", some [],
   MsgMeta.fromRag ⟨str "gemini-1.5-flash", some 0, some 0, some 15, none⟩⟩

/-- The two concurrent turns. -/
def turns01 : Fin 2 → Message × Message :=
  fun t => if t = 0 then (cUser0, cBot0) else (cUser1, cBot1)

/-- The racy interleaving: both turns load before either saves. -/
def racySched : List CEv := [CEv.load 0, CEv.load 1, CEv.save 0, CEv.save 1]

/-- The serialized interleaving: turn 0 completes before turn 1 starts. -/
def serialSched : List CEv := [CEv.load 0, CEv.save 0, CEv.load 1, CEv.save 1]

/-
Helper lemmas.
-/

theorem strIncludes_append_left (s t pat : Str) (h : strIncludes t pat = true) :
    strIncludes (s ++ t) pat = true := by
  induction s with
  | nil => simpa using h
  | cons c cs ih =>
    show (pat.isPrefixOf (c :: (cs ++ t)) || strIncludes (cs ++ t) pat) = true
    rw [ih]
    exact Bool.or_true _

theorem replaceFirst_infix (pat rep : Str) :
    ∀ s : Str, strIncludes s pat = true → rep <:+: replaceFirst pat rep s := by
  intro s
  induction s with
  | nil =>
    intro h
    have hpat : pat.isEmpty = true := by simpa [strIncludes] using h
    refine ⟨[], [], ?_⟩
    simp [replaceFirst, hpat]
  | cons c cs ih =>
    intro h
    by_cases hp : pat.isPrefixOf (c :: cs) = true
    · refine ⟨[], (c :: cs).drop pat.length, ?_⟩
      simp [replaceFirst, hp]
    · rw [Bool.not_eq_true] at hp
      have h2 : strIncludes cs pat = true := by
        have hh : (pat.isPrefixOf (c :: cs) || strIncludes cs pat) = true := h
        rw [hp] at hh
        simpa using hh
      obtain ⟨a, b, hab⟩ := ih h2
      refine ⟨c :: a, b, ?_⟩
      simp only [replaceFirst, hp]
      simp [← hab]

theorem replaceFirst_ne_nil (pat rep : Str) (s : Str) (hs : s ≠ [])
    (hp : pat.isPrefixOf s = false) : replaceFirst pat rep s ≠ [] := by
  cases s with
  | nil => exact absurd rfl hs
  | cons c cs => simp [replaceFirst, hp]

/-- Every selected fallback template is one of the four rendered ones. -/
theorem selectFallbackTemplate_cases (query : Str) :
    selectFallbackTemplate query = fallbackTemplate1 query ∨
    selectFallbackTemplate query = fallbackTemplate2 query ∨
    selectFallbackTemplate query = fallbackTemplate3 query ∨
    selectFallbackTemplate query = fallbackDefaultTemplate query := by
  unfold selectFallbackTemplate
  by_cases h1 : templateMatches fallbackKeywords1 query = true
  · rw [if_pos h1]; exact Or.inl rfl
  · rw [if_neg h1]
    by_cases h2 : templateMatches fallbackKeywords2 query = true
    · rw [if_pos h2]; exact Or.inr (Or.inl rfl)
    · rw [if_neg h2]
      by_cases h3 : templateMatches fallbackKeywords3 query = true
      · rw [if_pos h3]; exact Or.inr (Or.inr (Or.inl rfl))
      · rw [if_neg h3]; exact Or.inr (Or.inr (Or.inr rfl))

theorem generateFallbackResponse_ne_nil (query : Str) (documents : List Candidate) :
    generateFallbackResponse query documents ≠ [] := by
  have hsel := selectFallbackTemplate_cases query
  show replaceFirst sourcesPat _ (selectFallbackTemplate query) ≠ []
  rcases hsel with h | h | h | h <;> rw [h]
  · exact replaceFirst_ne_nil _ _ _
      (fun hnil => absurd (List.append_eq_nil.mp hnil).2 (by decide)) rfl
  · exact replaceFirst_ne_nil _ _ _
      (fun hnil => absurd (List.append_eq_nil.mp hnil).2 (by decide)) rfl
  · exact replaceFirst_ne_nil _ _ _
      (fun hnil => absurd (List.append_eq_nil.mp hnil).2 (by decide)) rfl
  · exact replaceFirst_ne_nil _ _ _
      (fun hnil => absurd (List.append_eq_nil.mp hnil).2 (by decide)) rfl

theorem selectFallbackTemplate_has_placeholder (query : Str) :
    strIncludes (selectFallbackTemplate query) sourcesPat = true := by
  rcases selectFallbackTemplate_cases query with h | h | h | h <;> rw [h]
  · exact strIncludes_append_left _ _ _ (by decide)
  · exact strIncludes_append_left _ _ _ (by decide)
  · exact strIncludes_append_left _ _ _ (by decide)
  · exact strIncludes_append_left _ _ _ (by decide)

theorem noSources_infix_fallback (query : Str) :
    noSourcesSentence <:+: generateFallbackResponse query [] := by
  show noSourcesSentence <:+:
    replaceFirst sourcesPat noSourcesSentence (selectFallbackTemplate query)
  exact replaceFirst_infix _ _ _ (selectFallbackTemplate_has_placeholder query)

theorem errorFallbackAnswer_ne_nil (query : Str) :
    errorFallbackAnswer query ≠ [] := by
  intro hnil
  exact absurd (List.append_eq_nil.mp hnil).2 (by decide)

theorem geminiAttemptResult_ok_length (o : GeminiOutcome) (t : Str)
    (h : geminiAttemptResult o = Except.ok t) : 10 < t.length := by
  cases o with
  | success s =>
    by_cases hl : 10 < s.length
    · have hst : s = t := by simpa [geminiAttemptResult, hl] using h
      rw [← hst]
      exact hl
    · simp [geminiAttemptResult, hl] at h
  | failure m => simp [geminiAttemptResult] at h

theorem geminiGo_isSome (env : Nat → GeminiOutcome) (maxRetries retryDelay : Nat) :
    ∀ fuel attempt, attempt + fuel = maxRetries + 1 → 0 < fuel →
      (geminiGo env maxRetries retryDelay fuel attempt).1 ≠ none := by
  intro fuel
  induction fuel with
  | zero => intro attempt _ h0; omega
  | succ f ih =>
    intro attempt hinv _
    cases hc : geminiAttemptResult (env attempt) with
    | ok t => simp [geminiGo, hc]
    | error m =>
      by_cases hretry : (retryableGemini m && decide (attempt < maxRetries)) = true
      · have hlt : attempt < maxRetries :=
          of_decide_eq_true ((Bool.and_eq_true _ _).mp hretry).2
        have hne := ih (attempt + 1) (by omega) (by omega)
        simp [geminiGo, hc, hretry, hne]
      · rw [Bool.not_eq_true] at hretry
        by_cases hlast : (attempt == maxRetries) = true
        · simp [geminiGo, hc, hretry, hlast]
        · rw [Bool.not_eq_true] at hlast
          have hne2 : attempt ≠ maxRetries := by
            intro hcontra
            rw [hcontra] at hlast
            simp at hlast
          have hne := ih (attempt + 1) (by omega) (by omega)
          simp [geminiGo, hc, hretry, hlast, hne]

theorem geminiGo_ok_length (env : Nat → GeminiOutcome) (maxRetries retryDelay : Nat) :
    ∀ fuel attempt t, (geminiGo env maxRetries retryDelay fuel attempt).1 = some (Except.ok t) →
      10 < t.length := by
  intro fuel
  induction fuel with
  | zero => intro attempt t h; simp [geminiGo] at h
  | succ f ih =>
    intro attempt t h
    cases hc : geminiAttemptResult (env attempt) with
    | ok s =>
      have hst : s = t := by simpa [geminiGo, hc] using h
      exact hst ▸ geminiAttemptResult_ok_length (env attempt) s hc
    | error m =>
      by_cases hretry : (retryableGemini m && decide (attempt < maxRetries)) = true
      · simp [geminiGo, hc, hretry] at h
        exact ih (attempt + 1) t h
      · rw [Bool.not_eq_true] at hretry
        by_cases hlast : (attempt == maxRetries) = true
        · simp [geminiGo, hc, hretry, hlast] at h
        · rw [Bool.not_eq_true] at hlast
          simp [geminiGo, hc, hretry, hlast] at h
          exact ih (attempt + 1) t h

theorem ragWithEmbedding_props (env : RagEnv) (cq : Str) (emb : EmbedOut) :
    (ragWithEmbedding env cq emb).answer ≠ [] ∧
    ((ragWithEmbedding env cq emb).metadata.modelUsed = str "gemini-1.5-flash" ∨
     (ragWithEmbedding env cq emb).metadata.modelUsed = str "fallback-template" ∨
     (ragWithEmbedding env cq emb).metadata.modelUsed = str "error-fallback") := by
  unfold ragWithEmbedding
  cases hg : (generateWithGemini env.gemini 3 2000).1 with
  | none => exact absurd hg (geminiGo_isSome env.gemini 3 2000 3 1 (by omega) (by omega))
  | some r =>
    cases r with
    | ok t =>
      have hlen : 10 < t.length := geminiGo_ok_length env.gemini 3 2000 3 1 t hg
      exact ⟨List.ne_nil_of_length_pos (show (0:Nat) < t.length by omega), Or.inl rfl⟩
    | error m => exact ⟨generateFallbackResponse_ne_nil cq _, Or.inr (Or.inl rfl)⟩

theorem generateRAGResponse_props (env : RagEnv) (q sid : Str) :
    (generateRAGResponse env q sid).answer ≠ [] ∧
    ((generateRAGResponse env q sid).metadata.modelUsed = str "gemini-1.5-flash" ∨
     (generateRAGResponse env q sid).metadata.modelUsed = str "fallback-template" ∨
     (generateRAGResponse env q sid).metadata.modelUsed = str "error-fallback") := by
  unfold generateRAGResponse
  split
  · exact ⟨errorFallbackAnswer_ne_nil q, Or.inr (Or.inr rfl)⟩
  · split
    · exact ⟨errorFallbackAnswer_ne_nil q, Or.inr (Or.inr rfl)⟩
    · exact ragWithEmbedding_props env _ _

/-
Claim theorems.
-/

/-- Claim C1: for every query string and sessionId, generateRAGResponse
returns (never throws) a RAGResult whose answer is a non-empty string and
whose metadata.modelUsed is exactly one of gemini-1.5-flash,
fallback-template, error-fallback; no failed terminal state is visible
to the caller. -/
theorem c1_generateRAGResponse_total_and_tagged :
    ∀ (env : RagEnv) (q sessionId : Str),
      ∃ r : RAGResult,
        generateRAGResponseJS env (QueryInput.string q) sessionId = Except.ok r ∧
        r.answer ≠ [] ∧
        (r.metadata.modelUsed = str "gemini-1.5-flash" ∨
         r.metadata.modelUsed = str "fallback-template" ∨
         r.metadata.modelUsed = str "error-fallback") :=
  fun env q sid =>
    ⟨generateRAGResponse env q sid, rfl,
     (generateRAGResponse_props env q sid).1, (generateRAGResponse_props env q sid).2⟩

/-- Claim C2, counterexample: on a transport failure searchVectors does
not return the empty list; it returns the five mock candidates, refuting
the claim that a failed similarity query yields no candidates. -/
theorem c2_counterexample_failure_returns_mock :
    searchVectors ⟨true, Except.error (str "connect ECONNREFUSED")⟩
      (EmbedOut.mock 0) 5 (mkRat 7 10) ≠ [] := by
  simp [searchVectors, getMockSearchResults]

/-- Claim C2, amended: on any transport failure, and also when the api
key is unconfigured, searchVectors returns the five hardcoded mock
articles rather than throwing or returning the empty list; the empty
list is returned only when the backend responds without a result field,
and a response with hits is mapped with the payload defaulted. -/
theorem c2_amended_failure_returns_mock_results :
    (∀ (msg : Str) (qv : EmbedOut) (l : Nat) (t : ℚ),
       searchVectors ⟨true, Except.error msg⟩ qv l t = getMockSearchResults) ∧
    (∀ (resp : Except Str (Option (List RawHit))) (qv : EmbedOut) (l : Nat) (t : ℚ),
       searchVectors ⟨false, resp⟩ qv l t = getMockSearchResults) ∧
    (∀ (qv : EmbedOut) (l : Nat) (t : ℚ),
       searchVectors ⟨true, Except.ok none⟩ qv l t = []) ∧
    (∀ (hits : List RawHit) (qv : EmbedOut) (l : Nat) (t : ℚ),
       searchVectors ⟨true, Except.ok (some hits)⟩ qv l t = hits.map rawToCandidate) :=
  ⟨fun _ _ _ _ => rfl, fun _ _ _ _ => rfl, fun _ _ _ => rfl, fun _ _ _ _ => rfl⟩

/-- Claim C3: the session store performs whole-value overwrite with no
per-session serialization, so the claimed no-lost-update guarantee fails:
in the interleaving where both turns load before either saves, the final
history holds only the second turn messages and the first turn user
message is gone, while the serialized interleaving of the same two turns
keeps all four messages. -/
theorem c3_lost_update_bug :
    (runSched turns01 racySched []).hist = [cUser1, cBot1] ∧
    cUser0 ∉ (runSched turns01 racySched []).hist ∧
    (runSched turns01 serialSched []).hist = [cUser0, cBot0, cUser1, cBot1] := by
  refine ⟨rfl, ?_, rfl⟩
  decide

/-- Claim C4: a non-retryable failure does not propagate on the first
attempt as claimed (and as the code comment, if it is the last attempt or
non-retryable error throw, documents): the loop only rethrows when
attempt equals maxRetries, so a 400-class failure on attempt 1 is
silently retried without delay and the call returns the attempt-2
success. -/
theorem c4_nonretryable_error_is_retried :
    generateWithGemini geminiEnvBadRequest 3 2000 =
      (some (Except.ok okText), [⟨1, none⟩, ⟨2, none⟩]) := rfl

/-- Claim C5, counterexample: with every attempt failing with a 503, the
live-path generateEmbedding makes 2 attempts (not 3), sleeps once for
1000 ms, and returns the deterministic mock embedding instead of
propagating an EmbeddingUnavailable error. -/
theorem c5_counterexample_mock_substituted :
    generateEmbedding jinaEnv503 (str "hello") 2 =
      (EmbedOut.mock (simpleHash (str "hello")), 2) ∧
    (jinaGo jinaEnv503 2 2 1).delays = [1000] := ⟨rfl, rfl⟩

/-- Claim C5, amended: on the live query path generateEmbedding retries
up to 2 attempts (stopping early on a truthy status below 500) with
linearly increasing delay, and after exhausting retries, or on any other
failure, it returns the deterministic mock embedding seeded by
simpleHash of the text; it never propagates an error to its caller. -/
theorem c5_amended_embedding_never_errors :
    ∀ (env : JinaEnv) (text : Str),
      (generateEmbedding env text 2).2 ≤ 2 ∧
      ((∃ v, (generateEmbedding env text 2).1 = EmbedOut.vec v) ∨
       (generateEmbedding env text 2).1 = EmbedOut.mock (simpleHash text)) := by
  intro env text
  by_cases hk : env.apiKeyConfigured = false
  · exact ⟨by simp [generateEmbedding, hk], Or.inr (by simp [generateEmbedding, hk])⟩
  · rw [Bool.not_eq_false] at hk
    cases h1 : env.attemptOutcome 1 with
    | ok emb =>
      refine ⟨?_, Or.inl ⟨emb, ?_⟩⟩
      · simp [generateEmbedding, hk, jinaGo, h1]
      · simp [generateEmbedding, hk, jinaGo, h1]
    | fail st m =>
      by_cases hs : jsStatusLt500 st = true
      · refine ⟨?_, Or.inr ?_⟩
        · simp [generateEmbedding, hk, jinaGo, h1, hs]
        · simp [generateEmbedding, hk, jinaGo, h1, hs]
      · rw [Bool.not_eq_true] at hs
        cases h2 : env.attemptOutcome 2 with
        | ok emb =>
          refine ⟨?_, Or.inl ⟨emb, ?_⟩⟩
          · simp [generateEmbedding, hk, jinaGo, h1, h2, hs]
          · simp [generateEmbedding, hk, jinaGo, h1, h2, hs]
        | fail st2 m2 =>
          refine ⟨?_, Or.inr ?_⟩
          · simp [generateEmbedding, hk, jinaGo, h1, h2, hs]
          · simp [generateEmbedding, hk, jinaGo, h1, h2, hs]

/-- Claim C6, counterexample: a string query of trimmed length 2 does not
propagate as an error from the orchestration: generateRAGResponse catches
its own validation throw and returns the error-fallback RAGResult, so
the caller sees a successful result, refuting the claim that validation
failure propagates as an error. -/
theorem c6_counterexample_no_error_propagated :
    generateRAGResponseJS ragEnv0 (QueryInput.string (str "ab")) (str "sess") =
      Except.ok (errorFallbackResult (str "ab")
        (str "Invalid query: Query is too short (minimum 3 characters)")) := rfl

/-- Claim C6, amended: an invalid string query (trimmed length outside
3 to 1000, or empty) makes generateRAGResponse return the error-fallback
RAGResult, with metadata.error recording the validation message, rather
than propagating an error; only a non-string query makes the call reject,
with a TypeError raised by the logging code, not with a terminal error
result. The gateway rejects invalid queries with a 400 before invoking
the orchestrator (see the badRequest branches of sendMessage). -/
theorem c6_amended_invalid_query_error_fallback :
    (∀ (env : RagEnv) (sid q e : Str),
       validateQuery (QueryInput.string q) = ValidationResult.invalid e →
       generateRAGResponseJS env (QueryInput.string q) sid =
         Except.ok (errorFallbackResult q (str "Invalid query: " ++ e))) ∧
    (∀ (env : RagEnv) (sid : Str),
       generateRAGResponseJS env QueryInput.nonString sid = Except.error jsTypeErrorMsg) := by
  constructor
  · intro env sid q e hv
    show Except.ok (generateRAGResponse env q sid) = _
    unfold generateRAGResponse
    rw [hv]
  · intro env sid
    rfl

/-- Witness for the amended C6 at the concrete query ab. -/
theorem c6_witness_short_query :
    generateRAGResponseJS ragEnv0 (QueryInput.string (str "ab")) (str "s") =
      Except.ok (errorFallbackResult (str "ab")
        (str "Invalid query: " ++ str "Query is too short (minimum 3 characters)")) :=
  c6_amended_invalid_query_error_fallback.1 ragEnv0 (str "s") (str "ab")
    (str "Query is too short (minimum 3 characters)") (by decide)

/-- Claim C7, counterexample: a candidate whose score equals the 0.7
threshold is dropped by the implemented post-filter, while the filter
described by the spec (drop only strictly below the threshold) keeps it,
refuting the claim that an equal-score candidate is kept. -/
theorem c7_counterexample_equal_score_dropped :
    relevanceFilter [candScore70] = [] ∧
    specRelevanceFilter (mkRat 7 10) [candScore70] = [candScore70] := by
  constructor
  · decide
  · decide

/-- Claim C7, amended: the post-filter keeps exactly the candidates whose
score is strictly greater than 0.7 (equality is dropped); with two
candidates scoring 0.85 and 0.6 exactly one survives, and in the full
scenario pipeline exactly one source reaches the result. -/
theorem c7_amended_strict_filter :
    (∀ (rs : List Candidate) (c : Candidate),
       c ∈ relevanceFilter rs ↔ c ∈ rs ∧ mkRat 7 10 < c.score) ∧
    relevanceFilter [candScore85, candScore60] = [candScore85] ∧
    (generateRAGResponse scenarioRagEnv (str "What happened in tech today?")
        (str "sess")).sources.length = 1 := by
  refine ⟨?_, by decide, by decide⟩
  intro rs c
  cases rs with
  | nil => simp [relevanceFilter]
  | cons a l => simp [relevanceFilter, List.mem_filter]

/-- Claim C8, counterexample: the streaming channel does not persist the
turn with a single wholesale save containing both new messages; it saves
twice, and the first save holds only the user message (save sizes 1 then
2 from an empty session), refuting the claimed single-save sequence. -/
theorem c8_counterexample_socket_two_saves :
    ((socketSendMessage turnEnv0 emptyStore sid0 msg0).2.2.map
      (fun p => p.2.length)) = [1, 2] := rfl

/-- Claim C8, amended: both channels load, append the user message,
invoke the orchestrator, append the bot message, and end with the full
history holding both new messages in order; the REST channel persists
with one wholesale save containing both messages, while the streaming
channel persists with two wholesale saves, the first containing only the
user message. The two channels build messages of the same shape and
content, differing in the user-message transport metadata. -/
theorem c8_amended_rest_single_save_socket_double_save :
    ∀ (env : TurnEnv) (store : SessStore) (sid msg q : Str),
      joiValid env sid msg = true →
      validateQuery (QueryInput.string msg) = ValidationResult.valid q →
      ∃ u b u2 b2 : Message,
        (sendMessage env store sid msg).2.2 = specGatewayTrace sid (store sid) u b ∧
        (socketSendMessage env store sid msg).2.2 =
          [(sid, store sid ++ [u2]), (sid, (store sid ++ [u2]) ++ [b2])] ∧
        u.type = str "user" ∧ b.type = str "bot" ∧
        u2.type = str "user" ∧ b2.type = str "bot" ∧
        u.content = q ∧ u2.content = q ∧
        b.content = b2.content ∧ u.id = u2.id ∧ b.id = b2.id := by
  intro env store sid msg q hj hv
  refine ⟨⟨env.userMsgId, str "user", q, none, MsgMeta.restUser env.ipAddress env.userAgent⟩,
    ⟨env.botMsgId, str "bot", (generateRAGResponse env.rag q sid).answer,
     some (generateRAGResponse env.rag q sid).sources,
     MsgMeta.fromRag (generateRAGResponse env.rag q sid).metadata⟩,
    ⟨env.userMsgId, str "user", q, none, MsgMeta.socketUser env.socketId env.ipAddress⟩,
    ⟨env.botMsgId, str "bot", (generateRAGResponse env.rag q sid).answer,
     some (generateRAGResponse env.rag q sid).sources,
     MsgMeta.fromRag (generateRAGResponse env.rag q sid).metadata⟩,
    ?_, ?_, rfl, rfl, rfl, rfl, rfl, rfl, rfl, rfl, rfl⟩
  · unfold sendMessage
    rw [if_neg (by simp [hj]), hv]
    rfl
  · unfold socketSendMessage
    rw [if_neg (by simp [hj]), hv]

/-- Witness for the amended C8 at a concrete environment, store and
message. -/
theorem c8_witness_concrete_turn :
    ∃ u b u2 b2 : Message,
      (sendMessage turnEnv0 emptyStore sid0 msg0).2.2 =
        specGatewayTrace sid0 (emptyStore sid0) u b ∧
      (socketSendMessage turnEnv0 emptyStore sid0 msg0).2.2 =
        [(sid0, emptyStore sid0 ++ [u2]), (sid0, (emptyStore sid0 ++ [u2]) ++ [b2])] ∧
      u.type = str "user" ∧ b.type = str "bot" ∧
      u2.type = str "user" ∧ b2.type = str "bot" ∧
      u.content = str "hello there" ∧ u2.content = str "hello there" ∧
      b.content = b2.content ∧ u.id = u2.id ∧ b.id = b2.id :=
  c8_amended_rest_single_save_socket_double_save turnEnv0 emptyStore sid0 msg0
    (str "hello there") (by decide) (by decide)

/-- Claim C9: generateFallbackResponse is a total pure function (it is a
Lean function on the candidate shape searchVectors guarantees, so it
terminates and cannot throw), its template text is never empty for any
query and candidate list, and on the empty candidate list the rendered
text contains the no-sources sentence in place of a source list. -/
theorem c9_fallback_total_and_no_sources :
    ∀ (query : Str) (documents : List Candidate),
      generateFallbackResponse query documents ≠ [] ∧
      noSourcesSentence <:+: generateFallbackResponse query [] :=
  fun q docs => ⟨generateFallbackResponse_ne_nil q docs, noSources_infix_fallback q⟩

/-- Claim C10: every saveSession call SETEXes the session key, so the
stored record carries the deadline now plus the full configured TTL,
independent of whatever deadline the key had in the prior state, and the
TTL defaults to 3600 seconds when REDIS_TTL is unset. -/
theorem c10_saveSession_resets_full_ttl :
    ∀ (st : RedisState) (now : Nat) (envTTL : Option Nat) (sid : Str)
      (msgs : List Message),
      saveSession st now envTTL sid msgs (sessionKey sid) =
        some (⟨sid, msgs, msgs.length⟩, now + effectiveTTL envTTL) ∧
      effectiveTTL none = 3600 := by
  intro st now envTTL sid msgs
  constructor
  · simp [saveSession, setex]
  · rfl
